import Mathlib

/-!
Verification of the gunrock HITS problem data-slice layer
(`src/gunrock/app/hits/hits_problem.cuh`).

The source file holds two variants of the HITS problem storage structure:
a newer template (`Problem` with nested `DataSlice`) and an older one
(`HITSProblem`).  Both are embedded below.  Rank values (`ValueT` /
`Value`, a float/double type in the source) are modelled as rationals:
the only numerals the claims mention (0.0, 1.0, i * 0.5) are exact in
binary floating point, so no rounding behaviour is lost.

`util::Array1D`, `util::Location` and the fill/move/release helpers live
in `gunrock/util`, which is not part of this source tree; they are
modelled from the spec (each such definition says so in its doc comment).
The lifecycle methods of `DataSlice`, `Problem` and `HITSProblem`
themselves are translated from the source.
-/

/-- Rank value type (`ValueT` / `Value` in the source), modelled as ℚ. -/
abbrev ValueT := ℚ

/-- Modelled from the spec: `util::Location` is a bitmask over the two
memory spaces the spec talks about, host and device
(`HOST`, `DEVICE`, `LOCATION_ALL = HOST | DEVICE`). -/
structure Location where
  host : Bool
  device : Bool
deriving DecidableEq

/-- The `util::HOST` location. -/
def Location.HOST : Location := ⟨true, false⟩

/-- The `util::DEVICE` location. -/
def Location.DEVICE : Location := ⟨false, true⟩

/-- The `util::LOCATION_ALL` location (host and device). -/
def Location.ALL : Location := ⟨true, true⟩

/-- Modelled from the spec: `util::Array1D` (defined in
`gunrock/util/array_utils.cuh`, not part of this source tree).  Storage
at each of the two locations is either unallocated (`none`) or an
allocated sequence of values. -/
structure Array1D (V : Type) where
  hostData : Option (List V)
  deviceData : Option (List V)
deriving DecidableEq

/-- An `Array1D` with no storage anywhere (state after the default
constructor, which only sets a name). -/
def Array1D.empty {V : Type} : Array1D V := ⟨none, none⟩

/-- Modelled from the spec: `Array1D::Release(target)` frees storage at
the requested location(s); already-freed storage is skipped, so a second
release is a no-op and never a double free. -/
def Array1D.Release {V : Type} (a : Array1D V) (t : Location) : Array1D V :=
  { hostData := if t.host then none else a.hostData
    deviceData := if t.device then none else a.deviceData }

/-- Modelled from the spec: `Array1D::Allocate(n, target)` creates
storage of length `n` at the requested location(s); the contents are
unspecified, represented by the arbitrary function `junk`. -/
def Array1D.Allocate {V : Type} (a : Array1D V) (junk : Nat → V) (n : Nat)
    (t : Location) : Array1D V :=
  { hostData := if t.host then some ((List.range n).map junk) else a.hostData
    deviceData := if t.device then some ((List.range n).map junk) else a.deviceData }

/-- Modelled from the spec: the growth step of `EnsureSize_` on one
location's storage — allocate if absent, grow (never shrink) if shorter
than `n`; grown cells hold unspecified contents `junk`. -/
def ensureList {V : Type} (junk : Nat → V) (n : Nat) : Option (List V) → List V
  | none => (List.range n).map junk
  | some l => if l.length < n then l ++ (List.range (n - l.length)).map junk else l

/-- Modelled from the spec: `Array1D::EnsureSize_(n, target)` ensures the
storage at each requested location has capacity at least `n`, growing if
needed and never shrinking. -/
def Array1D.EnsureSize {V : Type} (a : Array1D V) (junk : Nat → V) (n : Nat)
    (t : Location) : Array1D V :=
  { hostData := if t.host then some (ensureList junk n a.hostData) else a.hostData
    deviceData := if t.device then some (ensureList junk n a.deviceData) else a.deviceData }

/-- Overwrite the first `n` cells of a list with `v`: the effect of the
source's `ForEach` / `MemsetKernel` calls with a constant store, on one
location's storage. -/
def fillList {V : Type} (v : V) : Nat → List V → List V
  | _, [] => []
  | 0, l => l
  | n + 1, _ :: xs => v :: fillList v n xs

/-- Modelled from the spec: `ForEach` with a constant-store lambda over
`n` elements fills the first `n` cells at each requested location with
`v` (a no-op on unallocated storage, which the source never hits because
allocation precedes every fill). -/
def Array1D.Fill {V : Type} (a : Array1D V) (v : V) (n : Nat) (t : Location) :
    Array1D V :=
  { hostData := if t.host then a.hostData.map (fillList v n) else a.hostData
    deviceData := if t.device then a.deviceData.map (fillList v n) else a.deviceData }

/-!
### The newer template variant: `Problem` with nested `DataSlice`
(hits_problem.cuh, first variant).
-/

/-- The nested `DataSlice` of the newer `Problem` template: eight working
arrays plus the vertex count of the bound sub-graph partition
(`sub_graph->nodes`, the only part of the graph back-reference the
lifecycle methods read). -/
structure DataSlice where
  nodes : Nat
  degrees : Array1D ValueT
  visited : Array1D Int
  hrank_curr : Array1D ValueT
  arank_curr : Array1D ValueT
  hrank_next : Array1D ValueT
  arank_next : Array1D ValueT
  in_degrees : Array1D ValueT
  out_degrees : Array1D ValueT
deriving DecidableEq

/-- State after the `DataSlice` default constructor: only array names are
set, nothing is allocated. -/
def DataSlice.mkEmpty : DataSlice :=
  ⟨0, Array1D.empty, Array1D.empty, Array1D.empty, Array1D.empty,
   Array1D.empty, Array1D.empty, Array1D.empty, Array1D.empty⟩

/-- `DataSlice::Init(sub_graph, num_gpus, gpu_idx, target, flag)`: binds
the sub-graph (we keep its vertex count) and allocates the eight arrays,
each of length `sub_graph.nodes`, at `target`.  `num_gpus`, `gpu_idx`
and the flag only feed `BaseDataSlice::Init` and the topology move,
which are outside this layer.  `jV`/`jI` are the unspecified contents of
freshly allocated storage. -/
def DataSlice.Init (s : DataSlice) (jV : Nat → ValueT) (jI : Nat → Int)
    (sub_graph_nodes num_gpus gpu_idx : Nat) (target : Location) : DataSlice :=
  let _ := num_gpus
  let _ := gpu_idx
  { s with
    nodes := sub_graph_nodes
    degrees := s.degrees.Allocate jV sub_graph_nodes target
    visited := s.visited.Allocate jI sub_graph_nodes target
    hrank_curr := s.hrank_curr.Allocate jV sub_graph_nodes target
    arank_curr := s.arank_curr.Allocate jV sub_graph_nodes target
    hrank_next := s.hrank_next.Allocate jV sub_graph_nodes target
    arank_next := s.arank_next.Allocate jV sub_graph_nodes target
    in_degrees := s.in_degrees.Allocate jV sub_graph_nodes target
    out_degrees := s.out_degrees.Allocate jV sub_graph_nodes target }

/-- `DataSlice::Reset(target)`: `EnsureSize_` each array to
`sub_graph->nodes`, then fill — degrees/visited ← 0, `hrank_curr` and
`arank_curr` ← 1.0, `hrank_next` and `arank_next` ← 0.0,
in/out-degrees ← 0.  (The source runs all eight `EnsureSize_` calls
before the eight fills; the arrays are independent fields, so composing
ensure-then-fill per array gives the same state.) -/
def DataSlice.Reset (s : DataSlice) (jV : Nat → ValueT) (jI : Nat → Int)
    (target : Location) : DataSlice :=
  let n := s.nodes
  { s with
    degrees := (s.degrees.EnsureSize jV n target).Fill 0 n target
    visited := (s.visited.EnsureSize jI n target).Fill 0 n target
    hrank_curr := (s.hrank_curr.EnsureSize jV n target).Fill 1 n target
    arank_curr := (s.arank_curr.EnsureSize jV n target).Fill 1 n target
    hrank_next := (s.hrank_next.EnsureSize jV n target).Fill 0 n target
    arank_next := (s.arank_next.EnsureSize jV n target).Fill 0 n target
    in_degrees := (s.in_degrees.EnsureSize jV n target).Fill 0 n target
    out_degrees := (s.out_degrees.EnsureSize jV n target).Fill 0 n target }

/-- `DataSlice::Release(target)`: release each of the eight arrays at
`target` (then `BaseDataSlice::Release`, outside this layer).  Per the
spec this always reports success, so it is modelled as a total state
transformer. -/
def DataSlice.Release (s : DataSlice) (target : Location) : DataSlice :=
  { s with
    degrees := s.degrees.Release target
    visited := s.visited.Release target
    hrank_curr := s.hrank_curr.Release target
    arank_curr := s.arank_curr.Release target
    hrank_next := s.hrank_next.Release target
    arank_next := s.arank_next.Release target
    in_degrees := s.in_degrees.Release target
    out_degrees := s.out_degrees.Release target }

/-- The newer `Problem` template.  `data_slices` is the
`util::Array1D<SizeT, DataSlice>*` member: `none` models the NULL
pointer; otherwise one `Array1D` wrapper per GPU (the loops run
`gpu = 0 .. num_gpus-1`, and `Init` allocates exactly `num_gpus`
wrappers, so the list length stands for `num_gpus` in those loops).
Each wrapper's host storage holds the single `DataSlice`
(`Allocate(1, target | HOST)`), and its device storage is the device
copy of the struct. -/
structure Problem where
  num_gpus : Nat
  org_nodes : Nat
  data_slices : Option (List (Array1D DataSlice))
deriving DecidableEq

/-- `Problem::Release(target)` (newer variant): if `data_slices` is NULL
return success at once; otherwise release every per-GPU wrapper at
`target`, then delete the host-side `data_slices` array itself exactly
when `target` includes HOST and `data_slices[0].GetPointer(DEVICE)` is
NULL after the loop. -/
def Problem.Release : Problem → Location → Problem
  | ⟨g, o, none⟩, _ => ⟨g, o, none⟩
  | ⟨g, o, some slices⟩, target =>
    let released := slices.map (fun a => a.Release target)
    if target.host && ((released.headD Array1D.empty).deviceData).isNone then
      ⟨g, o, none⟩
    else
      ⟨g, o, some released⟩

/-- One iteration of the `Problem::Reset` loop body on one per-GPU
wrapper: `data_slices[gpu] -> Reset(target)` resets the hosted
`DataSlice`, then `data_slices[gpu].Move(HOST, target)` copies the host
copy of the struct to the device when `target` includes DEVICE. -/
def Problem.resetStep (jV : Nat → ValueT) (jI : Nat → Int) (target : Location)
    (a : Array1D DataSlice) : Array1D DataSlice :=
  let moved := a.hostData.map (List.map (fun ds => ds.Reset jV jI target))
  { hostData := moved
    deviceData := if target.device then moved else a.deviceData }

/-- The fail-fast loop of `Problem::Reset`: each `GUARD_CU` returns the
first error immediately.  `fail gpu` injects the outcome of device
`gpu`'s `SetDevice`/`DataSlice::Reset` (`some e`: that step fails with
CUDA error code `e` before mutating the wrapper; `none`: it succeeds).
On failure the remaining wrappers are left untouched. -/
def Problem.resetLoop (fail : Nat → Option Nat)
    (step : Array1D DataSlice → Array1D DataSlice) :
    Nat → List (Array1D DataSlice) → Option Nat × List (Array1D DataSlice)
  | _, [] => (none, [])
  | i, a :: rest =>
    match fail i with
    | some e => (some e, a :: rest)
    | none =>
      let r := Problem.resetLoop fail step (i + 1) rest
      (r.1, step a :: r.2)

/-- `Problem::Reset(target)` (newer variant): run the per-GPU reset loop
in ascending device order with fail-fast error propagation; the first
component is the returned `cudaError_t` (`none` = `cudaSuccess`). -/
def Problem.ResetE (p : Problem) (fail : Nat → Option Nat) (jV : Nat → ValueT)
    (jI : Nat → Int) (target : Location) : Option Nat × Problem :=
  match p.data_slices with
  | none => (none, p)
  | some slices =>
    let r := Problem.resetLoop fail (Problem.resetStep jV jI target) 0 slices
    (r.1, { p with data_slices := some r.2 })

/-- Write the elements of `src` over the first `src.length` cells of the
buffer `dst`: the effect of a `Move`/`ForEach` copy of a whole array
into a caller-supplied buffer. -/
def copyInto {V : Type} (src dst : List V) : List V :=
  src ++ dst.drop src.length

/-- `Problem::Extract(h_degrees, target)` (newer variant): in the
single-GPU case, copy the result array (`degrees` in this template) into
the caller's buffer — by a device→host `Move` when `target == DEVICE`,
by an element-wise host-side `ForEach` copy when `target == HOST`, and
by neither branch otherwise.  The multi-GPU branch of the source is
entirely commented out ("INCOMPLETE TEMPLATE - MULTIGPU"), so it leaves
the buffer untouched.  Returns the new contents of the caller's buffer. -/
def Problem.Extract (p : Problem) (h_degrees : List ValueT) (target : Location) :
    List ValueT :=
  match p.data_slices with
  | none => h_degrees
  | some slices =>
    if p.num_gpus = 1 then
      let ds := ((slices.headD Array1D.empty).hostData.getD []).headD DataSlice.mkEmpty
      if target = Location.DEVICE then
        match ds.degrees.deviceData with
        | some l => copyInto (l.take p.org_nodes) h_degrees
        | none => h_degrees
      else if target = Location.HOST then
        match ds.degrees.hostData with
        | some l => copyInto (l.take p.org_nodes) h_degrees
        | none => h_degrees
      else h_degrees
    else h_degrees

/-!
### The older variant: `HITSProblem` (hits_problem.cuh, second variant).
-/

/-- The `DataSlice` of the older `HITSProblem`: the four ping-pong rank
arrays plus the rank-magnitude scalar array. -/
structure HDataSlice where
  hrank_curr : Array1D ValueT
  arank_curr : Array1D ValueT
  hrank_next : Array1D ValueT
  arank_next : Array1D ValueT
  rank_mag : Array1D ValueT
deriving DecidableEq

/-- An `HDataSlice` with nothing allocated. -/
def HDataSlice.mkEmpty : HDataSlice :=
  ⟨Array1D.empty, Array1D.empty, Array1D.empty, Array1D.empty, Array1D.empty⟩

/-- The older `HITSProblem`: per-GPU data slices (one `HDataSlice` per
GPU, list length = `num_gpus` for the loops), the graph's vertex count
(`this->nodes`) and the ping-pong `selector`. -/
structure HITSProblem where
  num_gpus : Nat
  nodes : Nat
  selector : Nat
  data_slices : List HDataSlice
deriving DecidableEq

/-- `HITSProblem::Extract(h_hrank, h_arank)`: in the single-GPU case,
`SetPointer` aims the host side of `hrank_curr` / `arank_curr` at the
caller's buffers and `Move(DEVICE, HOST)` copies the device contents
into them; with more than one GPU the branch is a bare
"TODO: multi-GPU extract result" and nothing is copied.  Returns the new
contents of the two caller buffers. -/
def HITSProblem.Extract (p : HITSProblem) (h_hrank h_arank : List ValueT) :
    List ValueT × List ValueT :=
  if p.num_gpus = 1 then
    let ds := p.data_slices.headD HDataSlice.mkEmpty
    let h1 := match ds.hrank_curr.deviceData with
      | some l => copyInto l h_hrank
      | none => h_hrank
    let h2 := match ds.arank_curr.deviceData with
      | some l => copyInto l h_arank
      | none => h_arank
    (h1, h2)
  else (h_hrank, h_arank)

/-- Device-side allocate-if-null step of `HITSProblem::Reset`
(`if GetPointer(DEVICE) == NULL then Allocate(n, DEVICE)`). -/
def ensureDev (junk : Nat → ValueT) (n : Nat) (a : Array1D ValueT) :
    Array1D ValueT :=
  match a.deviceData with
  | none => { a with deviceData := some ((List.range n).map junk) }
  | some _ => a

/-- `MemsetKernel` on a device array: fill its first `n` cells with `v`. -/
def fillDev (v : ValueT) (n : Nat) (a : Array1D ValueT) : Array1D ValueT :=
  { a with deviceData := a.deviceData.map (fillList v n) }

/-- Single-cell device write (`cudaMemcpy` of one value to index `i`). -/
def setDev (i : Nat) (v : ValueT) (a : Array1D ValueT) : Array1D ValueT :=
  { a with deviceData := a.deviceData.map (fun l => l.set i v) }

/-- The per-GPU loop body of `HITSProblem::Reset`: allocate any
still-null device arrays, then memset `hrank_curr`/`arank_curr` ← 1.0,
`hrank_next`/`arank_next` ← 0.0 over `this->nodes` cells and
`rank_mag` ← 0.0 over its single cell. -/
def HDataSlice.hreset (junk : Nat → ValueT) (n : Nat) (s : HDataSlice) :
    HDataSlice :=
  { hrank_curr := fillDev 1 n (ensureDev junk n s.hrank_curr)
    arank_curr := fillDev 1 n (ensureDev junk n s.arank_curr)
    hrank_next := fillDev 0 n (ensureDev junk n s.hrank_next)
    arank_next := fillDev 0 n (ensureDev junk n s.arank_next)
    rank_mag := fillDev 0 1 (ensureDev junk 1 s.rank_mag) }

/-- `HITSProblem::Reset(src, delta, frontier_type, queue_sizing)` (older
variant), restricted to the storage this layer owns: run the memset loop
over every GPU's slice, then `cudaMemcpy` the initial score 1.0 into
`hrank_curr[src]` on GPU 0.  (`BaseDataSlice::Reset` and the frontier
queue setup touch only base-class state.) -/
def HITSProblem.Reset (p : HITSProblem) (junk : Nat → ValueT) (src : Nat) :
    HITSProblem :=
  let slices := p.data_slices.map (HDataSlice.hreset junk p.nodes)
  { p with
    data_slices :=
      match slices with
      | [] => []
      | s0 :: rest =>
        ({ s0 with hrank_curr := setDev src 1 s0.hrank_curr }) :: rest }

/-- Modelled from the spec: the multi-device Extract reassembly the spec
mandates and the source leaves unimplemented — for each vertex `v` of
the original numbering, look up its owning device in the
vertex-to-device `partition_table` and its local index in the
`convertion_table`, and take that device's result value. -/
def specReassemble (partition_table convertion_table : List Nat)
    (results : List (List ValueT)) (nodes : Nat) : List ValueT :=
  (List.range nodes).map (fun v =>
    ((results.getD (partition_table.getD v 0) []).getD (convertion_table.getD v 0) 0))

/-!
### Helper lemmas
-/

theorem fillList_length {V : Type} (v : V) (n : Nat) (l : List V) :
    (fillList v n l).length = l.length := by
  induction l generalizing n with
  | nil => cases n <;> rfl
  | cons x xs ih =>
    cases n with
    | zero => rfl
    | succ m => simp [fillList, ih]

theorem fillList_eq_replicate {V : Type} (v : V) {n : Nat} {l : List V}
    (h : l.length = n) : fillList v n l = List.replicate n v := by
  induction l generalizing n with
  | nil => subst h; rfl
  | cons x xs ih =>
    subst h
    simp [fillList, List.replicate_succ, ih rfl]

theorem fillList_fillList {V : Type} (v : V) (n : Nat) (l : List V) :
    fillList v n (fillList v n l) = fillList v n l := by
  induction l generalizing n with
  | nil => cases n <;> rfl
  | cons x xs ih =>
    cases n with
    | zero => rfl
    | succ m => simp [fillList, ih]

theorem set_fillList {V : Type} (v : V) {n i : Nat} (l : List V) (h : i < n) :
    (fillList v n l).set i v = fillList v n l := by
  induction l generalizing n i with
  | nil => cases n <;> rfl
  | cons x xs ih =>
    cases n with
    | zero => omega
    | succ m =>
      cases i with
      | zero => simp [fillList]
      | succ j => simp [fillList, ih (by omega : j < m)]

theorem fillList_getElem_lt {V : Type} (v : V) {n i : Nat} (l : List V)
    (hn : i < n) (hl : i < l.length) : (fillList v n l)[i]? = some v := by
  induction l generalizing n i with
  | nil => simp at hl
  | cons x xs ih =>
    cases n with
    | zero => omega
    | succ m =>
      cases i with
      | zero => simp [fillList]
      | succ j => simpa [fillList] using ih (by omega : j < m) (by simpa using hl)

theorem ensureList_of_le {V : Type} (j : Nat → V) {n : Nat} {l : List V}
    (h : n ≤ l.length) : ensureList j n (some l) = l := by
  simp [ensureList, Nat.not_lt.mpr h]

theorem le_length_ensureList {V : Type} (j : Nat → V) (n : Nat)
    (o : Option (List V)) : n ≤ (ensureList j n o).length := by
  cases o with
  | none => simp [ensureList]
  | some l =>
    by_cases h : l.length < n
    · simp [ensureList, h]; omega
    · simp [ensureList, h]; omega

/-- Whether an array holds exactly `n` copies of `v` at every location
the target `t` selects. -/
def Array1D.isReplicated {V : Type} (a : Array1D V) (t : Location) (n : Nat)
    (v : V) : Prop :=
  (t.host = true → a.hostData = some (List.replicate n v)) ∧
  (t.device = true → a.deviceData = some (List.replicate n v))

/-- Whether an array's storage is gone at every location `t` selects. -/
def Array1D.emptyAt {V : Type} (a : Array1D V) (t : Location) : Prop :=
  (t.host = true → a.hostData = none) ∧
  (t.device = true → a.deviceData = none)

theorem reset_after_alloc_replicated {V : Type} (j j2 : Nat → V) (v : V)
    (n : Nat) (t : Location) :
    ((((Array1D.empty : Array1D V).Allocate j n t).EnsureSize j2 n t).Fill
      v n t).isReplicated t n v := by
  obtain ⟨th, td⟩ := t
  cases th <;> cases td <;>
    constructor <;>
    intro h <;>
    simp_all [Array1D.empty, Array1D.Allocate, Array1D.EnsureSize, Array1D.Fill,
      Array1D.isReplicated, ensureList_of_le, fillList_eq_replicate]

theorem ensure_fill_idem {V : Type} (j j2 : Nat → V) (v : V) (n : Nat)
    (t : Location) (a : Array1D V) :
    (((a.EnsureSize j n t).Fill v n t).EnsureSize j2 n t).Fill v n t =
      (a.EnsureSize j n t).Fill v n t := by
  have key : ∀ o : Option (List V),
      fillList v n (ensureList j2 n (some (fillList v n (ensureList j n o)))) =
        fillList v n (ensureList j n o) := by
    intro o
    rw [ensureList_of_le j2 (by rw [fillList_length]; exact le_length_ensureList j n o)]
    exact fillList_fillList v n _
  obtain ⟨th, td⟩ := t
  cases th <;> cases td <;>
    simp [Array1D.EnsureSize, Array1D.Fill, key]

theorem release_release {V : Type} (a : Array1D V) (t : Location) :
    (a.Release t).Release t = a.Release t := by
  obtain ⟨th, td⟩ := t
  cases th <;> cases td <;> simp [Array1D.Release]

theorem release_emptyAt {V : Type} (a : Array1D V) (t : Location) :
    (a.Release t).emptyAt t := by
  constructor <;> intro h <;> simp [Array1D.Release, h]

/-!
### Claim theorems
-/

/-- **C1**: for every partition with `n` vertices and every device count
`D ≥ 1`, after `DataSlice::Init` then `DataSlice::Reset` the arrays
`hrank_curr`/`arank_curr` hold 1.0 and `hrank_next`/`arank_next` hold
0.0 at every index `i < n`, each with exactly `n` elements, and the
degree and visited arrays are filled with 0 — at every location the
target selects. -/
theorem C1_init_then_reset (jV jV2 : Nat → ValueT) (jI jI2 : Nat → Int)
    (n D gpu : Nat) (hD : 1 ≤ D) (t : Location) :
    ((DataSlice.mkEmpty.Init jV jI n D gpu t).Reset jV2 jI2 t).hrank_curr.isReplicated t n 1 ∧
    ((DataSlice.mkEmpty.Init jV jI n D gpu t).Reset jV2 jI2 t).arank_curr.isReplicated t n 1 ∧
    ((DataSlice.mkEmpty.Init jV jI n D gpu t).Reset jV2 jI2 t).hrank_next.isReplicated t n 0 ∧
    ((DataSlice.mkEmpty.Init jV jI n D gpu t).Reset jV2 jI2 t).arank_next.isReplicated t n 0 ∧
    ((DataSlice.mkEmpty.Init jV jI n D gpu t).Reset jV2 jI2 t).degrees.isReplicated t n 0 ∧
    ((DataSlice.mkEmpty.Init jV jI n D gpu t).Reset jV2 jI2 t).visited.isReplicated t n (0 : Int) ∧
    ((DataSlice.mkEmpty.Init jV jI n D gpu t).Reset jV2 jI2 t).in_degrees.isReplicated t n 0 ∧
    ((DataSlice.mkEmpty.Init jV jI n D gpu t).Reset jV2 jI2 t).out_degrees.isReplicated t n 0 :=
  ⟨reset_after_alloc_replicated jV jV2 1 n t,
   reset_after_alloc_replicated jV jV2 1 n t,
   reset_after_alloc_replicated jV jV2 0 n t,
   reset_after_alloc_replicated jV jV2 0 n t,
   reset_after_alloc_replicated jV jV2 0 n t,
   reset_after_alloc_replicated jI jI2 0 n t,
   reset_after_alloc_replicated jV jV2 0 n t,
   reset_after_alloc_replicated jV jV2 0 n t⟩

/-- Witness for C1 at a concrete input: 2 vertices, 1 device, device
target, arbitrary junk contents. -/
theorem C1_init_then_reset_witness :
    ((DataSlice.mkEmpty.Init (fun i => (i : ℚ)) (fun i => (i : Int)) 2 1 0
        Location.DEVICE).Reset (fun _ => 7) (fun _ => 7)
        Location.DEVICE).hrank_curr.isReplicated Location.DEVICE 2 1 :=
  (C1_init_then_reset (fun i => (i : ℚ)) (fun _ => 7) (fun i => (i : Int))
    (fun _ => 7) 2 1 0 (by decide) Location.DEVICE).1

/-- **C4**: `DataSlice::Release` is safe to call twice at any target —
the second call is a no-op (so both calls succeed with no double free),
and after the first call every released array reads back as empty. -/
theorem C4_double_release (s : DataSlice) (t : Location) :
    ((s.Release t).Release t = s.Release t) ∧
    (s.Release t).degrees.emptyAt t ∧
    (s.Release t).visited.emptyAt t ∧
    (s.Release t).hrank_curr.emptyAt t ∧
    (s.Release t).arank_curr.emptyAt t ∧
    (s.Release t).hrank_next.emptyAt t ∧
    (s.Release t).arank_next.emptyAt t ∧
    (s.Release t).in_degrees.emptyAt t ∧
    (s.Release t).out_degrees.emptyAt t :=
  ⟨by simp [DataSlice.Release, release_release],
   release_emptyAt _ t, release_emptyAt _ t, release_emptyAt _ t,
   release_emptyAt _ t, release_emptyAt _ t, release_emptyAt _ t,
   release_emptyAt _ t, release_emptyAt _ t⟩

/-- **C5**: `DataSlice::Reset` is idempotent — a second Reset with no
intervening writes leaves all eight arrays (and the whole slice) exactly
as the first left them, with no re-Init needed. -/
theorem C5_reset_idempotent (s : DataSlice) (jV jV2 : Nat → ValueT)
    (jI jI2 : Nat → Int) (t : Location) :
    (s.Reset jV jI t).Reset jV2 jI2 t = s.Reset jV jI t := by
  simp [DataSlice.Reset, ensure_fill_idem]

/-- **C9**: `Problem::Release` on a Problem whose `data_slices` is still
NULL (Init never ran) returns success at once and changes nothing, for
every target location. -/
theorem C9_release_before_init (p : Problem) (t : Location)
    (hp : p.data_slices = none) : p.Release t = p := by
  obtain ⟨g, o, ds⟩ := p
  simp only at hp
  subst hp
  rfl

/-- Witness for C9: a concrete uninitialized Problem, released at
`LOCATION_ALL`. -/
theorem C9_release_before_init_witness :
    Problem.Release ⟨1, 0, none⟩ Location.ALL = (⟨1, 0, none⟩ : Problem) :=
  C9_release_before_init ⟨1, 0, none⟩ Location.ALL rfl

/-- **C10**: single-device `Problem::Extract` with a target that is
neither exactly `DEVICE` nor exactly `HOST` (e.g. `LOCATION_ALL`) takes
no copy branch: it returns with the caller's buffer unchanged. -/
theorem C10_extract_other_target (p : Problem) (h : List ValueT)
    (t : Location) (h1 : p.num_gpus = 1) (h2 : t ≠ Location.DEVICE)
    (h3 : t ≠ Location.HOST) : p.Extract h t = h := by
  unfold Problem.Extract
  cases hds : p.data_slices with
  | none => rfl
  | some slices => simp [h1, h2, h3]

/-- Witness for C10: a concrete single-GPU Problem extracted at
`LOCATION_ALL` leaves the buffer `[5, 6]` unchanged. -/
theorem C10_extract_other_target_witness :
    Problem.Extract ⟨1, 3, some []⟩ [5, 6] Location.ALL = [5, 6] :=
  C10_extract_other_target ⟨1, 3, some []⟩ [5, 6] Location.ALL rfl
    (by decide) (by decide)

/-- **C2**: single-device `HITSProblem::Extract` copies `hrank_curr` and
`arank_curr` element-for-element into the caller's host buffers: after
the call, buffer index `i` holds the device-side rank at local index
`i`, for every vertex `i`. -/
theorem C2_single_gpu_extract (p : HITSProblem) (h_hrank h_arank : List ValueT)
    (dh da : List ValueT) (h1 : p.num_gpus = 1)
    (hdh : (p.data_slices.headD HDataSlice.mkEmpty).hrank_curr.deviceData = some dh)
    (hda : (p.data_slices.headD HDataSlice.mkEmpty).arank_curr.deviceData = some da) :
    (∀ i, i < dh.length → ((p.Extract h_hrank h_arank).1)[i]? = dh[i]?) ∧
    (∀ i, i < da.length → ((p.Extract h_hrank h_arank).2)[i]? = da[i]?) := by
  unfold HITSProblem.Extract
  simp only [h1, if_pos, hdh, hda, copyInto]
  constructor <;> intro i hi <;>
    simp [List.getElem?_append, hi]

/-- A concrete slice for the C2 witness: device-side ranks seeded with
the spec's round-trip sequence, vertex `i ↦ i * 0.5`. -/
def hSliceSeeded : HDataSlice :=
  ⟨⟨none, some [0, 1/2, 1, 3/2]⟩, ⟨none, some [0, 1/2, 1, 3/2]⟩,
   Array1D.empty, Array1D.empty, Array1D.empty⟩

/-- Witness for C2: after Extract from the seeded single-GPU problem the
host buffer holds 0.5 at index 1. -/
theorem C2_single_gpu_extract_witness :
    ((HITSProblem.Extract ⟨1, 4, 0, [hSliceSeeded]⟩
        [9, 9, 9, 9] [9, 9, 9, 9]).1)[1]? = some (1/2 : ℚ) :=
  ((C2_single_gpu_extract ⟨1, 4, 0, [hSliceSeeded]⟩
      [9, 9, 9, 9] [9, 9, 9, 9] [0, 1/2, 1, 3/2] [0, 1/2, 1, 3/2]
      rfl rfl rfl).1 1 (by decide)).trans rfl

/-- Device 0's slice for the C3 scenario: local vertices {0,1} with
result values [10, 11]. -/
def sliceDev0 : DataSlice :=
  ⟨2, ⟨some [10, 11], some [10, 11]⟩, Array1D.empty, Array1D.empty,
   Array1D.empty, Array1D.empty, Array1D.empty, Array1D.empty, Array1D.empty⟩

/-- Device 1's slice for the C3 scenario: local vertices {0,1} (global
{2,3}) with result values [12, 13]. -/
def sliceDev1 : DataSlice :=
  ⟨2, ⟨some [12, 13], some [12, 13]⟩, Array1D.empty, Array1D.empty,
   Array1D.empty, Array1D.empty, Array1D.empty, Array1D.empty, Array1D.empty⟩

/-- **C3** (evidence for the code bug): on a 4-vertex graph split across
2 devices ({0,1} → device 0 with local results [10, 11], {2,3} →
device 1 with [12, 13]), the multi-GPU branch of `Problem::Extract` —
commented out in the source — leaves the caller's buffer `[0,0,0,0]`
unchanged, whereas the reassembly the spec mandates yields
`[10, 11, 12, 13]`. -/
theorem C3_multi_gpu_extract_unimplemented :
    (Problem.Extract
        ⟨2, 4, some [⟨some [sliceDev0], none⟩, ⟨some [sliceDev1], none⟩]⟩
        [0, 0, 0, 0] Location.DEVICE = [0, 0, 0, 0]) ∧
    specReassemble [0, 0, 1, 1] [0, 1, 0, 1] [[10, 11], [12, 13]] 4 =
      [10, 11, 12, 13] ∧
    ([0, 0, 0, 0] : List ValueT) ≠ [10, 11, 12, 13] := by
  refine ⟨rfl, by decide, by decide⟩

/-- Writing the seed 1.0 at a valid source index into an array whose
first `n` cells were just memset to 1.0 changes nothing. -/
theorem setDev_hreset (junk : Nat → ValueT) {n src : Nat} (h : src < n)
    (a : Array1D ValueT) :
    setDev src 1 (fillDev 1 n (ensureDev junk n a)) =
      fillDev 1 n (ensureDev junk n a) := by
  have key : ∀ l : List ValueT, (fillList 1 n l).set src 1 = fillList 1 n l :=
    fun l => set_fillList 1 l h
  obtain ⟨ho, dev⟩ := a
  unfold setDev fillDev ensureDev
  cases dev with
  | none => simp [key]
  | some l => simp [key]

/-- **C8**: in the older `HITSProblem` variant, `Reset`'s buffer contents
do not depend on the `src` argument — for any two valid source vertices
the resulting states are identical, because the per-source write stores
1.0, the fill value already present at every index of `hrank_curr`. -/
theorem C8_reset_src_independent (p : HITSProblem) (junk : Nat → ValueT)
    (src1 src2 : Nat) (h1 : src1 < p.nodes) (h2 : src2 < p.nodes) :
    p.Reset junk src1 = p.Reset junk src2 := by
  obtain ⟨g, n, sel, ds⟩ := p
  simp only at h1 h2
  cases ds with
  | nil => rfl
  | cons d rest =>
    simp [HITSProblem.Reset, HDataSlice.hreset,
      setDev_hreset junk h1, setDev_hreset junk h2]

/-- Witness for C8: a concrete 3-vertex single-GPU problem reset from
source 0 and from source 2 ends in the same state. -/
theorem C8_reset_src_independent_witness :
    HITSProblem.Reset ⟨1, 3, 0, [HDataSlice.mkEmpty]⟩ (fun _ => 5) 0 =
      HITSProblem.Reset ⟨1, 3, 0, [HDataSlice.mkEmpty]⟩ (fun _ => 5) 2 :=
  C8_reset_src_independent ⟨1, 3, 0, [HDataSlice.mkEmpty]⟩ (fun _ => 5) 0 2
    (by decide) (by decide)

/-- Fail-fast shape of the `Problem::Reset` loop: when device `k` is the
first to fail (with error `e`), the loop returns `e`, the wrappers
before `k` are stepped and those from `k` on are untouched. -/
theorem resetLoop_fail {fail : Nat → Option Nat}
    {step : Array1D DataSlice → Array1D DataSlice} {e : Nat} :
    ∀ (slices : List (Array1D DataSlice)) (i k : Nat), k < slices.length →
      fail (i + k) = some e → (∀ j, j < k → fail (i + j) = none) →
      Problem.resetLoop fail step i slices =
        (some e, (slices.take k).map step ++ slices.drop k) := by
  intro slices
  induction slices with
  | nil =>
    intro i k hk hke hlt
    simp at hk
  | cons a rest ih =>
    intro i k hk hke hlt
    cases k with
    | zero =>
      have h0 : fail i = some e := by simpa using hke
      simp [Problem.resetLoop, h0]
    | succ m =>
      have h0 : fail i = none := by
        have := hlt 0 (Nat.succ_pos m)
        simpa using this
      have hke2 : fail (i + 1 + m) = some e := by
        have : i + 1 + m = i + (m + 1) := by omega
        rw [this]; exact hke
      have hlt2 : ∀ j, j < m → fail (i + 1 + j) = none := by
        intro j hj
        have : i + 1 + j = i + (j + 1) := by omega
        rw [this]; exact hlt (j + 1) (by omega)
      have hm : m < rest.length := by simpa using hk
      simp [Problem.resetLoop, h0, ih (i + 1) m hm hke2 hlt2]

/-- **C6**: `Problem::Reset` walks the DataSlices in ascending device
order and fails fast — if device `k`'s reset is the first to fail, the
call returns that error, devices before `k` are left in the reset state
and devices after `k` are untouched. -/
theorem C6_reset_fail_fast (p : Problem) (slices : List (Array1D DataSlice))
    (hp : p.data_slices = some slices) (fail : Nat → Option Nat) (e k : Nat)
    (hk : k < slices.length) (hke : fail k = some e)
    (hlt : ∀ j, j < k → fail j = none)
    (jV : Nat → ValueT) (jI : Nat → Int) (t : Location) :
    ((p.ResetE fail jV jI t).1 = some e) ∧
    ((p.ResetE fail jV jI t).2.data_slices =
      some ((slices.take k).map (Problem.resetStep jV jI t) ++ slices.drop k)) ∧
    (∀ j, j < k →
      ((p.ResetE fail jV jI t).2.data_slices.getD [])[j]? =
        (slices[j]?).map (Problem.resetStep jV jI t)) ∧
    (∀ j, k < j →
      ((p.ResetE fail jV jI t).2.data_slices.getD [])[j]? = slices[j]?) := by
  have hloop := @resetLoop_fail fail (Problem.resetStep jV jI t) e slices 0 k hk
    (by simpa using hke) (by intro j hj; simpa using hlt j hj)
  have h1 : (p.ResetE fail jV jI t).1 = some e := by
    unfold Problem.ResetE
    rw [hp]
    simp [hloop]
  have h2 : (p.ResetE fail jV jI t).2.data_slices =
      some ((slices.take k).map (Problem.resetStep jV jI t) ++ slices.drop k) := by
    unfold Problem.ResetE
    rw [hp]
    simp [hloop]
  have hlen : ((slices.take k).map (Problem.resetStep jV jI t)).length = k := by
    simp [List.length_take, Nat.min_eq_left (Nat.le_of_lt hk)]
  refine ⟨h1, h2, ?_, ?_⟩
  · intro j hj
    rw [h2]
    have hj2 : j < ((slices.take k).map (Problem.resetStep jV jI t)).length := by
      omega
    simp only [Option.getD_some, List.getElem?_append, hj2, if_pos]
    rw [List.getElem?_map]
    congr 1
    rw [List.getElem?_take]
    simp [hj]
  · intro j hj
    rw [h2]
    have hj2 : ¬ j < ((slices.take k).map (Problem.resetStep jV jI t)).length := by
      omega
    simp only [Option.getD_some, List.getElem?_append, hj2, if_neg, not_false_iff]
    rw [hlen, List.getElem?_drop]
    congr 1
    omega

/-- A concrete per-GPU wrapper (host copy of an empty DataSlice, no
device copy) used by concrete instances below. -/
def wEmpty : Array1D DataSlice := ⟨some [DataSlice.mkEmpty], none⟩

/-- Witness for C6: with three devices and an injected failure (CUDA
error code 7) on device 1, `Problem::Reset` returns error 7. -/
theorem C6_reset_fail_fast_witness :
    (Problem.ResetE ⟨3, 9, some [wEmpty, wEmpty, wEmpty]⟩
      (fun i => if i = 1 then some 7 else none) (fun _ => 0) (fun _ => 0)
      Location.DEVICE).1 = some 7 :=
  (C6_reset_fail_fast ⟨3, 9, some [wEmpty, wEmpty, wEmpty]⟩
    [wEmpty, wEmpty, wEmpty] rfl (fun i => if i = 1 then some 7 else none)
    7 1 (by decide) rfl
    (fun j hj => by
      have hj0 : j = 0 := by omega
      subst hj0
      rfl)
    (fun _ => 0) (fun _ => 0) Location.DEVICE).1

/-- **C7** counterexample: a 2-device state in which, after the
per-slice release pass at target HOST, device 1's device-side storage is
still allocated while device 0's is empty — yet `Problem::Release`
frees the host-side `data_slices` array, because the source consults
only `data_slices[0].GetPointer(DEVICE)`.  This falsifies the claim that
the host array is kept whenever any device's device-side storage is
still allocated. -/
theorem C7_release_counterexample :
    ((Problem.Release
        ⟨2, 4, some [⟨some [DataSlice.mkEmpty], none⟩,
                     ⟨some [DataSlice.mkEmpty], some [DataSlice.mkEmpty]⟩]⟩
        Location.HOST).data_slices = none) ∧
    ((Array1D.Release ⟨some [DataSlice.mkEmpty], some [DataSlice.mkEmpty]⟩
        Location.HOST).deviceData ≠ none) := by
  constructor
  · rfl
  · simp [Array1D.Release, Location.HOST]

/-- **C7 amended**: `Problem::Release` releases every per-GPU wrapper at
the requested target, and frees the host-side `data_slices` array
exactly when the target includes HOST and the *first* wrapper's
device-side storage is empty after that release pass — the source
consults only `data_slices[0]`, not every device. -/
theorem C7_release_amended (p : Problem) (slices : List (Array1D DataSlice))
    (hp : p.data_slices = some slices) (t : Location) :
    ((p.Release t).data_slices = none ∨
      (p.Release t).data_slices = some (slices.map (fun a => a.Release t))) ∧
    (((p.Release t).data_slices = none) ↔
      (t.host = true ∧
        ((slices.map (fun a => a.Release t)).headD Array1D.empty).deviceData
          = none)) := by
  obtain ⟨g, o, ds⟩ := p
  simp only at hp
  subst hp
  have hst : Problem.Release ⟨g, o, some slices⟩ t =
      (if t.host &&
          (((slices.map (fun a => a.Release t)).headD Array1D.empty).deviceData).isNone
        then (⟨g, o, none⟩ : Problem)
        else ⟨g, o, some (slices.map (fun a => a.Release t))⟩) := by
    simp [Problem.Release]
  cases hc : t.host &&
      (((slices.map (fun a => a.Release t)).headD Array1D.empty).deviceData).isNone with
  | true =>
    have hc2 := hc
    simp only [Bool.and_eq_true, Option.isNone_iff_eq_none] at hc2
    rw [hst, if_pos hc]
    refine ⟨Or.inl rfl, ?_⟩
    constructor
    · intro _
      exact ⟨hc2.1, hc2.2⟩
    · intro _
      rfl
  | false =>
    rw [hst, if_neg (by rw [hc]; simp)]
    refine ⟨Or.inr rfl, ?_⟩
    constructor
    · intro habs
      exact absurd habs (by simp)
    · rintro ⟨hth, hX⟩
      rw [hth, hX] at hc
      simp at hc

/-- Witness for C7 amended: a single-device Problem released at
`LOCATION_ALL` has its host-side `data_slices` array freed. -/
theorem C7_release_amended_witness :
    (Problem.Release ⟨1, 2, some [wEmpty]⟩ Location.ALL).data_slices = none :=
  (C7_release_amended ⟨1, 2, some [wEmpty]⟩ [wEmpty] rfl Location.ALL).2.mpr
    ⟨rfl, rfl⟩
